import Mathlib

/-!
Shallow embedding of the middleware demo application (AdonisJS sample):
bearer-token authentication, role authorization, CORS handling, fixed-window
rate limiting, feature-flag gating and response transformation, together with
theorems checking the natural-language specification against the code.
-/

set_option maxRecDepth 4096

/-- JavaScript truthiness of an optional string value: `undefined` and the
empty string are falsy, every other string is truthy. -/
def jsTruthy : Option String → Bool
  | none => false
  | some s => !(s == "")

/-- JavaScript `a || b` on optional strings: yields `a` when it is truthy,
otherwise `b`. -/
def jsOr (a b : Option String) : Option String :=
  if jsTruthy a then a else b

/-- Replace the first occurrence of `pat` in a character list by `rep`,
mirroring JavaScript `String.replace` with a string pattern. -/
def replaceFirstAux (pat rep : List Char) : List Char → List Char
  | [] => []
  | c :: cs =>
    if pat.isPrefixOf (c :: cs) then rep ++ (c :: cs).drop pat.length
    else c :: replaceFirstAux pat rep cs

/-- JavaScript `s.replace(pat, rep)` for a nonempty string pattern: only the
first occurrence of `pat`, anywhere in `s`, is replaced. -/
def replaceFirst (s pat rep : String) : String :=
  String.mk (replaceFirstAux pat.data rep.data s.data)

/-- Lookup in an association list, mirroring JavaScript `Map.get` and
property access on plain objects. -/
def assocGet {α : Type} : List (String × α) → String → Option α
  | [], _ => none
  | (k, v) :: rest, key => if k = key then some v else assocGet rest key

/-- Update in an association list, mirroring JavaScript `Map.set` and object
spread with one overridden key: an existing binding is replaced in place,
a new one is appended at the end. -/
def assocSet {α : Type} : List (String × α) → String → α → List (String × α)
  | [], key, v => [(key, v)]
  | (k, w) :: rest, key, v =>
    if k = key then (key, v) :: rest else (k, w) :: assocSet rest key v

theorem assocGet_assocSet_self {α : Type} (l : List (String × α)) (k : String) (v : α) :
    assocGet (assocSet l k v) k = some v := by
  induction l with
  | nil => simp [assocSet, assocGet]
  | cons hd tl ih =>
    obtain ⟨k1, v1⟩ := hd
    by_cases h : k1 = k
    · simp [assocSet, h, assocGet]
    · simp [assocSet, h, assocGet, ih]

theorem assocGet_assocSet_ne {α : Type} (l : List (String × α)) (k k2 : String) (v : α)
    (h : k2 ≠ k) : assocGet (assocSet l k v) k2 = assocGet l k2 := by
  have hne : k ≠ k2 := Ne.symm h
  induction l with
  | nil => simp [assocSet, assocGet, hne]
  | cons hd tl ih =>
    obtain ⟨k1, v1⟩ := hd
    by_cases hk : k1 = k
    · subst hk
      simp [assocSet, assocGet, hne]
    · simp [assocSet, hk, assocGet, ih]

theorem assocSet_assocSet {α : Type} (l : List (String × α)) (k : String) (v w : α) :
    assocSet (assocSet l k v) k w = assocSet l k w := by
  induction l with
  | nil => simp [assocSet]
  | cons hd tl ih =>
    obtain ⟨k1, v1⟩ := hd
    by_cases h : k1 = k
    · simp [assocSet, h]
    · simp [assocSet, h, ih]

theorem assocSet_of_get_eq {α : Type} (l : List (String × α)) (k : String) (v : α)
    (h : assocGet l k = some v) : assocSet l k v = l := by
  induction l with
  | nil => simp [assocGet] at h
  | cons hd tl ih =>
    obtain ⟨k1, v1⟩ := hd
    by_cases hk : k1 = k
    · subst hk
      simp [assocGet] at h
      simp [assocSet, h]
    · simp [assocGet, hk] at h
      simp [assocSet, hk, ih h]

/-- The request attributes the middleware under study read: HTTP method,
client address, the authorization header, the `token` request input, the
user-agent, origin and content-type headers, and whether reading the
request body throws a parse error. -/
structure Request where
  method : String
  ip : String
  authHeader : Option String
  tokenParam : Option String
  userAgent : Option String
  origin : Option String
  contentType : Option String
  bodyParseThrows : Bool
deriving DecidableEq

/-- Mock user record attached to the request context by the authentication
middleware (`id`, `name`, `role`, `email`). -/
structure User where
  id : Nat
  name : String
  role : String
  email : String
deriving DecidableEq

namespace Auth

/-- Outcome of `Auth.handle`: an early JSON error response with the given
status, or continuation into the downstream chain with the authenticated
user injected into the request context. -/
inductive Result where
  | reject (status : Nat)
  | proceed (user : User)
deriving DecidableEq

/-- The static valid-token set of `Auth.handle`. -/
def validTokens : List String :=
  ["user-token-123", "admin-token-456", "demo-token-789"]

/-- Token-to-user table of `Auth.getUserFromToken`, with the guest fallback
for unknown tokens. -/
def getUserFromToken (token : String) : User :=
  if token = "user-token-123" then ⟨1, "John Doe", "user", "john@example.com"⟩
  else if token = "admin-token-456" then ⟨2, "Jane Admin", "admin", "jane@example.com"⟩
  else if token = "demo-token-789" then ⟨3, "Demo User", "demo", "demo@example.com"⟩
  else ⟨0, "Unknown", "guest", ""⟩

/-- `Auth.handle`: reads the authorization header, falling back to the
`token` request input; rejects with 401 when the result is falsy; removes
the first occurrence of the substring `Bearer ` (JavaScript
`token.replace(..)`); rejects with 401 when the cleaned token is not in
`validTokens`; otherwise proceeds with the looked-up user. -/
def handle (req : Request) : Result :=
  let token := jsOr req.authHeader req.tokenParam
  if !(jsTruthy token) then .reject 401
  else
    let cleanToken := replaceFirst (token.getD "") "Bearer " ""
    if !(validTokens.contains cleanToken) then .reject 401
    else .proceed (getUserFromToken cleanToken)

end Auth

namespace Admin

/-- Outcome of `Admin.handle`: an early JSON error response, or continuation
with `isAdmin` and the static admin permission list added to the context. -/
inductive Result where
  | reject (status : Nat)
  | proceed (isAdmin : Bool) (adminPermissions : List String)
deriving DecidableEq

/-- The static admin permission list attached by `Admin.handle`. -/
def adminPermissions : List String :=
  ["read_all_users", "delete_users", "modify_system_settings", "view_analytics"]

/-- `Admin.handle`: 401 when no user is in the request context, 403 when the
user's role is not `admin`, otherwise proceeds with the admin context. -/
def handle (ctxUser : Option User) : Result :=
  match ctxUser with
  | none => .reject 401
  | some user =>
    if user.role ≠ "admin" then .reject 403
    else .proceed true adminPermissions

end Admin

/-- The `/demo/protected` route: `Auth.handle` guards
`DemoController.protected`, which responds 200 with a JSON body exposing the
context user. The pair is the response status and the user shown in the
body (none when the middleware short-circuited). -/
def protectedEndpoint (req : Request) : Nat × Option User :=
  match Auth.handle req with
  | .reject s => (s, none)
  | .proceed u => (200, some u)

/-- The `/demo/admin` route: `Auth.handle` then `Admin.handle` guard
`DemoController.admin`, which responds 200. The value is the response
status. -/
def adminEndpoint (req : Request) : Nat :=
  match Auth.handle req with
  | .reject s => s
  | .proceed u =>
    match Admin.handle (some u) with
    | .reject s => s
    | .proceed _ _ => 200

/-- Token cleaning as the specification sentence words it: strip a single
leading `Bearer ` when the token starts with it, otherwise leave the token
unchanged. Stated for comparison with the code's `replaceFirst`. -/
def stripBearerSpec (token : String) : String :=
  if "Bearer ".data.isPrefixOf token.data then String.mk (token.data.drop 7) else token

/-- A request template with no authentication material. -/
def baseReq : Request :=
  { method := "GET", ip := "192.168.0.1", authHeader := none, tokenParam := none,
    userAgent := none, origin := none, contentType := none, bodyParseThrows := false }

/-- A request whose authorization header contains `Bearer ` in the middle of
the token rather than as a leading tag. -/
def reqBearerInfix : Request :=
  { baseReq with authHeader := some "user-Bearer token-123" }

/-- A request presenting the raw token `user-token-123`. -/
def reqUserTok : Request :=
  { baseReq with authHeader := some "user-token-123" }

/-- A request presenting the raw token `admin-token-456`. -/
def reqAdminTok : Request :=
  { baseReq with authHeader := some "admin-token-456" }

/-- C1 counterexample: the claim predicts 401 for the authorization header
`user-Bearer token-123`, whose token after stripping a leading `Bearer `
is not one of the three valid tokens; the code instead removes the first
occurrence of the substring `Bearer ` anywhere, obtains `user-token-123`,
and serves the protected endpoint with the `user` mock record. -/
theorem c1_counterexample :
    stripBearerSpec "user-Bearer token-123" ∉ Auth.validTokens ∧
    protectedEndpoint reqBearerInfix =
      (200, some ⟨1, "John Doe", "user", "john@example.com"⟩) := by
  constructor
  · decide
  · decide

/-- C1 (amended): for every request to the route guarded by the bearer-token
authenticator: 401 when neither the authorization header nor the `token`
parameter is present; 401 when the supplied token, after removal of the
first occurrence of the substring `Bearer `, is not one of the three valid
tokens; otherwise the downstream chain runs with the mock record for that
token — and a request with token `user-token-123` is served 200 with a user
whose role is `user`. -/
theorem c1_auth_gate (req : Request) :
    (req.authHeader = none ∧ req.tokenParam = none →
      protectedEndpoint req = (401, none)) ∧
    (∀ tok, jsOr req.authHeader req.tokenParam = some tok →
      jsTruthy (some tok) = true →
      replaceFirst tok "Bearer " "" ∉ Auth.validTokens →
      protectedEndpoint req = (401, none)) ∧
    (∀ tok, jsOr req.authHeader req.tokenParam = some tok →
      jsTruthy (some tok) = true →
      replaceFirst tok "Bearer " "" ∈ Auth.validTokens →
      Auth.handle req =
        .proceed (Auth.getUserFromToken (replaceFirst tok "Bearer " ""))) ∧
    (req.authHeader = some "user-token-123" →
      ∃ u, protectedEndpoint req = (200, some u) ∧ u.role = "user") := by
  refine ⟨?_, ?_, ?_, ?_⟩
  · rintro ⟨h1, h2⟩
    simp [protectedEndpoint, Auth.handle, jsOr, jsTruthy, h1, h2]
  · intro tok htok htru hmem
    simp [protectedEndpoint, Auth.handle, htok, htru, hmem]
  · intro tok htok htru hmem
    simp [Auth.handle, htok, htru, hmem]
  · intro hh
    refine ⟨⟨1, "John Doe", "user", "john@example.com"⟩, ?_, rfl⟩
    simp [protectedEndpoint, Auth.handle, jsOr, jsTruthy, hh]
    decide

/-- C1 witness: the amended theorem applied to the request carrying the raw
token `user-token-123`. -/
theorem c1_auth_gate_witness :
    ∃ u, protectedEndpoint reqUserTok = (200, some u) ∧ u.role = "user" :=
  (c1_auth_gate reqUserTok).2.2.2 rfl

/-- C9: whenever the bearer-token authenticator proceeds into the downstream
chain, the user record it attached is one of the three mock records (ids 1,
2, 3 with roles user, admin, demo); the guest fallback of the lookup is
unreachable. -/
theorem c9_no_guest_user (req : Request) (u : User)
    (h : Auth.handle req = .proceed u) :
    (u = ⟨1, "John Doe", "user", "john@example.com"⟩ ∨
     u = ⟨2, "Jane Admin", "admin", "jane@example.com"⟩ ∨
     u = ⟨3, "Demo User", "demo", "demo@example.com"⟩) ∧
    u.role ≠ "guest" := by
  simp only [Auth.handle] at h
  split at h
  · simp at h
  · split at h
    · simp at h
    · rename_i h1 h2
      simp only [Auth.Result.proceed.injEq] at h
      have hmem :
          replaceFirst ((jsOr req.authHeader req.tokenParam).getD "") "Bearer " "" ∈
            Auth.validTokens := by
        simpa [List.contains] using h2
      simp only [Auth.validTokens, List.mem_cons, List.not_mem_nil, or_false] at hmem
      rcases hmem with hm | hm | hm
      all_goals rw [hm] at h
      · refine ⟨Or.inl ?_, ?_⟩
        · exact h.symm.trans (by decide)
        · rw [← h]
          decide
      · refine ⟨Or.inr (Or.inl ?_), ?_⟩
        · exact h.symm.trans (by decide)
        · rw [← h]
          decide
      · refine ⟨Or.inr (Or.inr ?_), ?_⟩
        · exact h.symm.trans (by decide)
        · rw [← h]
          decide

/-- C9 witness: the theorem applied to the request carrying
`user-token-123`, which authenticates as the id-1 mock user. -/
theorem c9_no_guest_user_witness :
    ((⟨1, "John Doe", "user", "john@example.com"⟩ : User) =
       ⟨1, "John Doe", "user", "john@example.com"⟩ ∨
     (⟨1, "John Doe", "user", "john@example.com"⟩ : User) =
       ⟨2, "Jane Admin", "admin", "jane@example.com"⟩ ∨
     (⟨1, "John Doe", "user", "john@example.com"⟩ : User) =
       ⟨3, "Demo User", "demo", "demo@example.com"⟩) ∧
    User.role ⟨1, "John Doe", "user", "john@example.com"⟩ ≠ "guest" :=
  c9_no_guest_user reqUserTok ⟨1, "John Doe", "user", "john@example.com"⟩ (by decide)

/-- C2: the role authorizer rejects with 401 when no user is in the request
context, rejects with 403 when the user's role is not `admin`, and
otherwise proceeds with `isAdmin` and the static four-element permission
list; the admin endpoint answers 403 to `user-token-123` and 200 to
`admin-token-456`. -/
theorem c2_admin_gate :
    Admin.handle none = .reject 401 ∧
    (∀ u : User, u.role ≠ "admin" → Admin.handle (some u) = .reject 403) ∧
    (∀ u : User, u.role = "admin" →
      Admin.handle (some u) = .proceed true Admin.adminPermissions ∧
      Admin.adminPermissions.length = 4) ∧
    adminEndpoint reqUserTok = 403 ∧
    adminEndpoint reqAdminTok = 200 := by
  refine ⟨rfl, ?_, ?_, by decide, by decide⟩
  · intro u hu
    simp [Admin.handle, hu]
  · intro u hu
    exact ⟨by simp [Admin.handle, hu], rfl⟩

/-- C2 witness: the theorem applied to the id-2 admin mock user. -/
theorem c2_admin_gate_witness :
    Admin.handle (some ⟨2, "Jane Admin", "admin", "jane@example.com"⟩) =
      .proceed true Admin.adminPermissions ∧
    Admin.adminPermissions.length = 4 :=
  c2_admin_gate.2.2.1 ⟨2, "Jane Admin", "admin", "jane@example.com"⟩ rfl

namespace Cors

/-- The static origin allow-list of the CORS middleware. -/
def allowedOrigins : List String :=
  ["http://localhost:3000", "http://localhost:3001", "https://yourdomain.com"]

/-- The methods advertised in `Access-Control-Allow-Methods`. -/
def allowedMethods : List String :=
  ["GET", "POST", "PUT", "DELETE", "PATCH", "OPTIONS"]

/-- The headers advertised in `Access-Control-Allow-Headers`. -/
def allowedHeaders : List String :=
  ["Content-Type", "Authorization", "X-Requested-With", "Accept", "Origin"]

/-- `Cors.setCorsHeaders`: the allow-origin header echoes an allowed origin,
is `*` when the origin header is absent (or empty, hence falsy), and is
omitted for a disallowed origin; the methods, headers and credentials
headers are always added. -/
def setCorsHeaders (origin : Option String) : List (String × String) :=
  (if jsTruthy origin && allowedOrigins.contains (origin.getD "") then
    [("Access-Control-Allow-Origin", origin.getD "")]
  else if !(jsTruthy origin) then
    [("Access-Control-Allow-Origin", "*")]
  else []) ++
  [("Access-Control-Allow-Methods", String.intercalate ", " allowedMethods),
   ("Access-Control-Allow-Headers", String.intercalate ", " allowedHeaders),
   ("Access-Control-Allow-Credentials", "true")]

/-- Observable outcome of `Cors.handle`: the response status, whether the
downstream chain ran, and the headers the middleware added. -/
structure HandleResult where
  status : Nat
  downstreamRan : Bool
  headers : List (String × String)
deriving DecidableEq

/-- `Cors.handle`: an `OPTIONS` request is answered 204 with the preflight
headers before the downstream chain runs; any other request is processed
downstream and then receives the CORS headers. -/
def handle (req : Request) (downstreamStatus : Nat) : HandleResult :=
  if req.method = "OPTIONS" then
    { status := 204, downstreamRan := false,
      headers := setCorsHeaders req.origin ++ [("Access-Control-Max-Age", "86400")] }
  else
    { status := downstreamStatus, downstreamRan := true,
      headers := setCorsHeaders req.origin }

end Cors

/-- C8: an `OPTIONS` request short-circuits with 204 and the preflight CORS
headers before the downstream chain runs; any other request lets the
downstream chain complete and then receives the allow-methods and
allow-headers CORS headers, with the allow-origin header governed by the
static origin allow-list. -/
theorem c8_cors (req : Request) (ds : Nat) :
    (req.method = "OPTIONS" →
      Cors.handle req ds =
        { status := 204, downstreamRan := false,
          headers := Cors.setCorsHeaders req.origin ++
            [("Access-Control-Max-Age", "86400")] }) ∧
    (req.method ≠ "OPTIONS" →
      Cors.handle req ds =
        { status := ds, downstreamRan := true,
          headers := Cors.setCorsHeaders req.origin }) ∧
    ("Access-Control-Allow-Methods", String.intercalate ", " Cors.allowedMethods) ∈
      Cors.setCorsHeaders req.origin ∧
    ("Access-Control-Allow-Headers", String.intercalate ", " Cors.allowedHeaders) ∈
      Cors.setCorsHeaders req.origin ∧
    (∀ o, ("Access-Control-Allow-Origin", o) ∈ Cors.setCorsHeaders req.origin ↔
      ((req.origin = some o ∧ o ∈ Cors.allowedOrigins) ∨
       (jsTruthy req.origin = false ∧ o = "*"))) := by
  refine ⟨?_, ?_, ?_, ?_, ?_⟩
  · intro hm
    simp [Cors.handle, hm]
  · intro hm
    simp [Cors.handle, hm]
  · simp [Cors.setCorsHeaders]
  · simp [Cors.setCorsHeaders]
  · intro o
    match horig : req.origin with
    | none =>
      simp [Cors.setCorsHeaders, jsTruthy]
    | some s =>
      by_cases hs : s = ""
      · subst hs
        constructor
        · intro hin
          simp [Cors.setCorsHeaders, jsTruthy] at hin
          exact Or.inr ⟨rfl, hin⟩
        · rintro (⟨ho, hmem⟩ | ⟨-, ho⟩)
          · cases ho
            simp [Cors.allowedOrigins] at hmem
          · subst ho
            simp [Cors.setCorsHeaders, jsTruthy]
      · constructor
        · intro hin
          simp [Cors.setCorsHeaders, jsTruthy, hs] at hin
          obtain ⟨hm2, ho⟩ := hin
          subst ho
          exact Or.inl ⟨rfl, hm2⟩
        · rintro (⟨ho, hmem2⟩ | ⟨hfalsy, ho⟩)
          · cases ho
            simp [Cors.setCorsHeaders, jsTruthy, hs, hmem2]
          · simp [jsTruthy, hs] at hfalsy

/-- A preflight request from an allowed origin. -/
def reqPreflight : Request :=
  { baseReq with method := "OPTIONS", origin := some "http://localhost:3000" }

/-- C8 witness: the theorem applied to a preflight request from an allowed
origin. -/
theorem c8_cors_witness :
    Cors.handle reqPreflight 200 =
      { status := 204, downstreamRan := false,
        headers :=
          Cors.setCorsHeaders reqPreflight.origin ++
            [("Access-Control-Max-Age", "86400")] } :=
  (c8_cors reqPreflight 200).1 rfl

namespace RateLimit

/-- Stored value of the in-memory request table: a request counter and the
timestamp (milliseconds) at which the window resets. -/
structure Entry where
  count : Nat
  resetTime : Nat
deriving DecidableEq

/-- The three configured limit tiers. -/
inductive LimitType where
  | default
  | strict
  | generous
deriving DecidableEq

/-- A tier configuration: maximal request count and window length in
milliseconds. -/
structure Config where
  requests : Nat
  windowMs : Nat
deriving DecidableEq

/-- `RateLimit.limits`: 100 requests per 15 minutes, 10 per minute, 1000 per
hour. -/
def limits : LimitType → Config
  | .default => ⟨100, 15 * 60 * 1000⟩
  | .strict => ⟨10, 60 * 1000⟩
  | .generous => ⟨1000, 60 * 60 * 1000⟩

/-- Tier name used in the table key. -/
def LimitType.name : LimitType → String
  | .default => "default"
  | .strict => "strict"
  | .generous => "generous"

/-- The shared in-memory table `RateLimit.requests`, keyed by
`clientIP:limitType`. -/
abbrev Table := List (String × Entry)

/-- The table key for a client address and tier. -/
def rlKey (ip : String) (limitType : LimitType) : String :=
  ip ++ ":" ++ limitType.name

/-- Outcome of one `RateLimit.handle` call: 429 with the rate-limit headers
and `Retry-After`, or continuation with the remaining/limit/reset headers
(the guarded route then answers 200). -/
inductive Result where
  | rejected (limit remaining reset retryAfter : Nat)
  | allowed (limit remaining reset : Nat)
deriving DecidableEq

/-- The outcome `RateLimit.handle` produces once the updated counter for the
window resetting at `r` is known. -/
def mkOutcome (cfg : Config) (count r now : Nat) : Result :=
  if count > cfg.requests then .rejected cfg.requests 0 r ((r - now + 999) / 1000)
  else .allowed cfg.requests (cfg.requests - count) r

/-- `RateLimit.handle`: reads the entry for `clientIP:limitType`; starts a
fresh window (count 0, reset now + window) when there is none or the stored
reset timestamp is in the past; increments the counter; writes the entry
back; then rejects with 429 and `Retry-After` of the seconds left (rounded
up) when the counter exceeds the tier limit, and otherwise allows the
request with the remaining/limit/reset headers. -/
def handle (ip : String) (limitType : LimitType) (now : Nat) (tbl : Table) :
    Result × Table :=
  let key := rlKey ip limitType
  let limit := limits limitType
  let base : Entry :=
    match assocGet tbl key with
    | none => ⟨0, now + limit.windowMs⟩
    | some d => if now > d.resetTime then ⟨0, now + limit.windowMs⟩ else d
  let entry : Entry := ⟨base.count + 1, base.resetTime⟩
  let tbl2 := assocSet tbl key entry
  (mkOutcome limit entry.count entry.resetTime now, tbl2)

theorem handle_get_none (ip : String) (t : LimitType) (now : Nat) (tbl : Table)
    (h : assocGet tbl (rlKey ip t) = none) :
    handle ip t now tbl =
      (mkOutcome (limits t) 1 (now + (limits t).windowMs) now,
       assocSet tbl (rlKey ip t) ⟨1, now + (limits t).windowMs⟩) := by
  simp [handle, h]

theorem handle_get_live (ip : String) (t : LimitType) (now : Nat) (tbl : Table)
    (c r : Nat) (h : assocGet tbl (rlKey ip t) = some ⟨c, r⟩) (hnow : now ≤ r) :
    handle ip t now tbl =
      (mkOutcome (limits t) (c + 1) r now, assocSet tbl (rlKey ip t) ⟨c + 1, r⟩) := by
  simp [handle, h, Nat.not_lt.mpr hnow]

theorem handle_get_stale (ip : String) (t : LimitType) (now : Nat) (tbl : Table)
    (c r : Nat) (h : assocGet tbl (rlKey ip t) = some ⟨c, r⟩) (hnow : r < now) :
    handle ip t now tbl =
      (mkOutcome (limits t) 1 (now + (limits t).windowMs) now,
       assocSet tbl (rlKey ip t) ⟨1, now + (limits t).windowMs⟩) := by
  simp [handle, h, hnow]

end RateLimit

/-- C7: each processed request updates the in-memory table by the
fixed-window rule — the entry for the request's key is replaced wholesale
by count 1 with reset timestamp `now + window` when absent or expired, and
otherwise its count grows by exactly one with the reset timestamp
unchanged. -/
theorem c7_fixed_window (ip : String) (t : RateLimit.LimitType) (now : Nat)
    (tbl : RateLimit.Table) :
    assocGet (RateLimit.handle ip t now tbl).2 (RateLimit.rlKey ip t) =
      some (match assocGet tbl (RateLimit.rlKey ip t) with
            | none => ⟨1, now + (RateLimit.limits t).windowMs⟩
            | some d =>
              if now > d.resetTime then ⟨1, now + (RateLimit.limits t).windowMs⟩
              else ⟨d.count + 1, d.resetTime⟩) := by
  match hg : assocGet tbl (RateLimit.rlKey ip t) with
  | none =>
    rw [RateLimit.handle_get_none ip t now tbl hg]
    simp [assocGet_assocSet_self]
  | some d =>
    obtain ⟨c, r⟩ := d
    by_cases hnow : now > r
    · rw [RateLimit.handle_get_stale ip t now tbl c r hg hnow]
      simp [assocGet_assocSet_self, hnow]
    · rw [RateLimit.handle_get_live ip t now tbl c r hg (Nat.not_lt.mp hnow)]
      simp [assocGet_assocSet_self, hnow]

/-- C10: a request touches only its own `(IP, tier)` table entry — every
other key holds the same stored count and reset timestamp after the call,
whether the request was allowed or rejected. -/
theorem c10_frame (ip : String) (t : RateLimit.LimitType) (now : Nat)
    (tbl : RateLimit.Table) (k : String) (hk : k ≠ RateLimit.rlKey ip t) :
    assocGet (RateLimit.handle ip t now tbl).2 k = assocGet tbl k := by
  match hg : assocGet tbl (RateLimit.rlKey ip t) with
  | none =>
    rw [RateLimit.handle_get_none ip t now tbl hg]
    exact assocGet_assocSet_ne tbl _ k _ hk
  | some d =>
    obtain ⟨c, r⟩ := d
    by_cases hnow : now > r
    · rw [RateLimit.handle_get_stale ip t now tbl c r hg hnow]
      exact assocGet_assocSet_ne tbl _ k _ hk
    · rw [RateLimit.handle_get_live ip t now tbl c r hg (Nat.not_lt.mp hnow)]
      exact assocGet_assocSet_ne tbl _ k _ hk

/-- C10 witness: a strict-tier request from one address leaves another
address's strict-tier entry absent, as it was. -/
theorem c10_frame_witness :
    assocGet (RateLimit.handle "10.0.0.1" .strict 1000 []).2 "10.0.0.2:strict" =
      assocGet ([] : RateLimit.Table) "10.0.0.2:strict" :=
  c10_frame "10.0.0.1" .strict 1000 [] "10.0.0.2:strict" (by decide)

namespace RateLimit

/-- Sequential processing of requests from one client through the limiter,
threading the shared table: one `handle` call per arrival timestamp. -/
def processSeq (ip : String) (t : LimitType) : List Nat → Table → List Result × Table
  | [], tbl => ([], tbl)
  | now :: rest, tbl =>
    let step := handle ip t now tbl
    let tail := processSeq ip t rest step.2
    (step.1 :: tail.1, tail.2)

/-- The outcomes of a run of in-window requests, starting from stored count
`c` for the window resetting at `r`. -/
def expectedSeq (cfg : Config) (r : Nat) : Nat → List Nat → List Result
  | _, [] => []
  | c, now :: rest => mkOutcome cfg (c + 1) r now :: expectedSeq cfg r (c + 1) rest

theorem processSeq_cons (ip : String) (t : LimitType) (now : Nat) (rest : List Nat)
    (tbl : Table) (res : Result) (tbl2 : Table) (h : handle ip t now tbl = (res, tbl2)) :
    processSeq ip t (now :: rest) tbl =
      (res :: (processSeq ip t rest tbl2).1, (processSeq ip t rest tbl2).2) := by
  simp [processSeq, h]

/-- Requests all arriving before the stored reset timestamp only increment
the counter: the run's outcomes follow `expectedSeq` and the final table
holds the accumulated count under the same reset timestamp. -/
theorem processSeq_live (ip : String) (t : LimitType) (ts : List Nat) :
    ∀ (tbl : Table) (c r : Nat),
      assocGet tbl (rlKey ip t) = some ⟨c, r⟩ → (∀ x ∈ ts, x ≤ r) →
      processSeq ip t ts tbl =
        (expectedSeq (limits t) r c ts, assocSet tbl (rlKey ip t) ⟨c + ts.length, r⟩) := by
  induction ts with
  | nil =>
    intro tbl c r hget hwin
    simp [processSeq, expectedSeq, assocSet_of_get_eq tbl (rlKey ip t) ⟨c, r⟩ hget]
  | cons now rest ih =>
    intro tbl c r hget hwin
    have hnow : now ≤ r := hwin now (List.mem_cons_self now rest)
    rw [processSeq_cons ip t now rest tbl _ _ (handle_get_live ip t now tbl c r hget hnow)]
    rw [ih (assocSet tbl (rlKey ip t) ⟨c + 1, r⟩) (c + 1) r
      (assocGet_assocSet_self tbl (rlKey ip t) ⟨c + 1, r⟩)
      (fun x hx => hwin x (List.mem_cons_of_mem now hx))]
    rw [assocSet_assocSet]
    have harr : c + 1 + rest.length = c + (rest.length + 1) := by omega
    rw [harr]
    simp [expectedSeq]

end RateLimit

/-- C3: eleven sequential requests from one client address within one strict
window (10 per 60000 ms), starting from an empty table: the first ten are
allowed with `X-RateLimit-Remaining` decreasing 9, 8, ..., 0 (each served
200 by the guarded route), and the eleventh is rejected with 429 carrying a
`Retry-After` header of the seconds left in the window, rounded up. -/
theorem c3_strict_eleven (ip : String)
    (t0 t1 t2 t3 t4 t5 t6 t7 t8 t9 t10 : Nat)
    (hmono : t0 ≤ t1 ∧ t1 ≤ t2 ∧ t2 ≤ t3 ∧ t3 ≤ t4 ∧ t4 ≤ t5 ∧ t5 ≤ t6 ∧
      t6 ≤ t7 ∧ t7 ≤ t8 ∧ t8 ≤ t9 ∧ t9 ≤ t10)
    (hwin : t10 ≤ t0 + 60000) :
    (RateLimit.processSeq ip .strict [t0, t1, t2, t3, t4, t5, t6, t7, t8, t9, t10] []).1 =
      [.allowed 10 9 (t0 + 60000), .allowed 10 8 (t0 + 60000),
       .allowed 10 7 (t0 + 60000), .allowed 10 6 (t0 + 60000),
       .allowed 10 5 (t0 + 60000), .allowed 10 4 (t0 + 60000),
       .allowed 10 3 (t0 + 60000), .allowed 10 2 (t0 + 60000),
       .allowed 10 1 (t0 + 60000), .allowed 10 0 (t0 + 60000),
       .rejected 10 0 (t0 + 60000) ((t0 + 60000 - t10 + 999) / 1000)] := by
  obtain ⟨h01, h12, h23, h34, h45, h56, h67, h78, h89, h910⟩ := hmono
  have hfresh : assocGet ([] : RateLimit.Table) (RateLimit.rlKey ip .strict) = none := rfl
  have hw : (RateLimit.limits .strict).windowMs = 60000 := rfl
  rw [RateLimit.processSeq_cons ip .strict t0 _ [] _ _
    (RateLimit.handle_get_none ip .strict t0 [] hfresh)]
  rw [RateLimit.processSeq_live ip .strict _ _ 1 (t0 + (RateLimit.limits .strict).windowMs)
    (assocGet_assocSet_self [] (RateLimit.rlKey ip .strict)
      ⟨1, t0 + (RateLimit.limits .strict).windowMs⟩)
    (by
      intro x hx
      rw [hw]
      simp only [List.mem_cons, List.not_mem_nil, or_false] at hx
      rcases hx with h | h | h | h | h | h | h | h | h | h <;> subst h <;> omega)]
  rw [hw]
  simp only [RateLimit.expectedSeq, RateLimit.mkOutcome, RateLimit.limits]
  norm_num

/-- C3 witness: the theorem applied to the concrete arrival times
0, 1, ..., 10 milliseconds. -/
theorem c3_strict_eleven_witness :
    (RateLimit.processSeq "10.0.0.9" .strict [0, 1, 2, 3, 4, 5, 6, 7, 8, 9, 10] []).1 =
      [.allowed 10 9 60000, .allowed 10 8 60000, .allowed 10 7 60000,
       .allowed 10 6 60000, .allowed 10 5 60000, .allowed 10 4 60000,
       .allowed 10 3 60000, .allowed 10 2 60000, .allowed 10 1 60000,
       .allowed 10 0 60000, .rejected 10 0 60000 60] :=
  c3_strict_eleven "10.0.0.9" 0 1 2 3 4 5 6 7 8 9 10
    (by omega) (by omega)

namespace FeatureFlag

/-- A configured feature flag: enabled switch, rollout percentage, and
whether it requires an authenticated user (absent in the source object for
most flags, hence false). -/
structure Feature where
  enabled : Bool
  rollout : Nat
  requiresAuth : Bool
deriving DecidableEq

/-- The static flag table `FeatureFlag.features`. -/
def features (name : String) : Option Feature :=
  if name = "new-api" then some ⟨true, 100, false⟩
  else if name = "beta-features" then some ⟨true, 50, false⟩
  else if name = "experimental" then some ⟨false, 0, false⟩
  else if name = "premium-features" then some ⟨true, 100, true⟩
  else none

/-- 32-bit signed integer truncation, the effect of JavaScript `hash & hash`
and of the 32-bit shift. -/
def toInt32 (n : Int) : Int :=
  let m := n % 4294967296
  if m < 2147483648 then m else m - 4294967296

/-- One iteration of the rollout hash loop:
`hash = ((hash << 5) - hash) + char` followed by `hash = hash & hash`. -/
def hashStep (hash : Int) (c : Nat) : Int :=
  toInt32 (toInt32 (hash * 32) - hash + c)

/-- The seed hash of `FeatureFlag.getUserRolloutId`, folded over the
character codes of the seed string. -/
def jsHash (s : String) : Int :=
  s.data.foldl (fun h c => hashStep h c.toNat) 0

/-- `FeatureFlag.getUserRolloutId`: absolute value of the hash of the client
IP concatenated with the user-agent header (empty string when absent). -/
def getUserRolloutId (req : Request) : Nat :=
  (jsHash (req.ip ++ req.userAgent.getD "")).natAbs

/-- Flag metadata added to the request context when the gate admits the
request. -/
structure FeatureCtx where
  name : String
  enabled : Bool
  rolloutId : Nat
  rolloutPercentage : Nat
deriving DecidableEq

/-- Outcome of `FeatureFlag.handle`: an early JSON error response, or
continuation with the flag metadata in the context. -/
inductive Result where
  | reject (status : Nat)
  | proceed (feature : FeatureCtx)
deriving DecidableEq

/-- `FeatureFlag.handle`: 404 for an unknown flag, 403 for a disabled flag,
403 when the client's deterministic rollout bucket is at or above the
flag's rollout percentage, 401 when the flag requires authentication and no
user is in the context, otherwise continuation with the flag metadata. -/
def handle (featureName : String) (req : Request) (ctxUser : Option User) : Result :=
  match features featureName with
  | none => .reject 404
  | some feature =>
    if !feature.enabled then .reject 403
    else
      let userRolloutId := getUserRolloutId req
      let userRolloutPercentage := userRolloutId % 100
      if userRolloutPercentage ≥ feature.rollout then .reject 403
      else if feature.requiresAuth && ctxUser.isNone then .reject 401
      else .proceed ⟨featureName, true, userRolloutId, feature.rollout⟩

/-- Status answered by a route guarded only by the feature-flag gate: the
gate's error status, or 200 from the downstream controller. -/
def featureGateStatus (featureName : String) (req : Request) (ctxUser : Option User) :
    Nat :=
  match handle featureName req ctxUser with
  | .reject s => s
  | .proceed _ => 200

end FeatureFlag

/-- C4: the feature-flag gate checks in order: 404 for an unconfigured flag,
403 for a disabled flag, 403 when the rollout bucket is outside the flag's
percentage, 401 when the flag requires authentication and no user is in
context, otherwise continuation with the flag metadata; the disabled
feature endpoint always answers 403 and the 100 percent rollout endpoint
always answers 200, regardless of client identity. -/
theorem c4_feature_gate (f : String) (req : Request) (u : Option User) :
    (FeatureFlag.features f = none → FeatureFlag.handle f req u = .reject 404) ∧
    (∀ ft, FeatureFlag.features f = some ft → ft.enabled = false →
      FeatureFlag.handle f req u = .reject 403) ∧
    (∀ ft, FeatureFlag.features f = some ft → ft.enabled = true →
      FeatureFlag.getUserRolloutId req % 100 ≥ ft.rollout →
      FeatureFlag.handle f req u = .reject 403) ∧
    (∀ ft, FeatureFlag.features f = some ft → ft.enabled = true →
      FeatureFlag.getUserRolloutId req % 100 < ft.rollout →
      ft.requiresAuth = true → u = none →
      FeatureFlag.handle f req u = .reject 401) ∧
    (∀ ft, FeatureFlag.features f = some ft → ft.enabled = true →
      FeatureFlag.getUserRolloutId req % 100 < ft.rollout →
      (ft.requiresAuth = true → u ≠ none) →
      FeatureFlag.handle f req u =
        .proceed ⟨f, true, FeatureFlag.getUserRolloutId req, ft.rollout⟩) ∧
    FeatureFlag.featureGateStatus "experimental" req u = 403 ∧
    FeatureFlag.featureGateStatus "new-api" req u = 200 := by
  have hbucket : FeatureFlag.getUserRolloutId req % 100 < 100 :=
    Nat.mod_lt _ (by norm_num)
  refine ⟨?_, ?_, ?_, ?_, ?_, ?_, ?_⟩
  · intro hf
    simp [FeatureFlag.handle, hf]
  · intro ft hf hen
    simp [FeatureFlag.handle, hf, hen]
  · intro ft hf hen hro
    simp [FeatureFlag.handle, hf, hen, hro]
  · intro ft hf hen hro hauth hu
    simp [FeatureFlag.handle, hf, hen, Nat.not_le.mpr hro, hauth, hu]
  · intro ft hf hen hro hauth
    have hno : (ft.requiresAuth && u.isNone) = false := by
      cases hra : ft.requiresAuth
      · simp
      · have hne := hauth hra
        cases u
        · exact absurd rfl hne
        · simp
    simp [FeatureFlag.handle, hf, hen, Nat.not_le.mpr hro, hno]
  · simp [FeatureFlag.featureGateStatus, FeatureFlag.handle, FeatureFlag.features]
  · have hro : ¬ (FeatureFlag.getUserRolloutId req % 100 ≥ 100) := Nat.not_le.mpr hbucket
    simp [FeatureFlag.featureGateStatus, FeatureFlag.handle, FeatureFlag.features, hro]

/-- A request used to exercise the premium feature gate. -/
def reqPremium : Request := { baseReq with ip := "1.2.3.4" }

/-- C4 witness: the theorem applied to the authenticated premium-features
flag, whose rollout is 100 percent. -/
theorem c4_feature_gate_witness :
    FeatureFlag.handle "premium-features" reqPremium
        (some ⟨1, "John Doe", "user", "john@example.com"⟩) =
      .proceed ⟨"premium-features", true, FeatureFlag.getUserRolloutId reqPremium, 100⟩ :=
  (c4_feature_gate "premium-features" reqPremium
      (some ⟨1, "John Doe", "user", "john@example.com"⟩)).2.2.2.2.1
    ⟨true, 100, true⟩ (by decide) rfl (Nat.mod_lt _ (by norm_num))
    (fun _ h => Option.noConfusion h)

/-- C6: the rollout bucket is a deterministic function of the client IP and
user-agent alone — two requests agreeing on those two attributes produce
the same rollout id, the same bucket (the hash of IP concatenated with
user-agent, reduced modulo 100), and the same gate decision, whatever their
other attributes and whatever user is in context. -/
theorem c6_rollout_deterministic (f : String) (req1 req2 : Request) (u : Option User)
    (hip : req1.ip = req2.ip) (hua : req1.userAgent = req2.userAgent) :
    FeatureFlag.getUserRolloutId req1 = FeatureFlag.getUserRolloutId req2 ∧
    FeatureFlag.getUserRolloutId req1 =
      (FeatureFlag.jsHash (req1.ip ++ req1.userAgent.getD "")).natAbs ∧
    FeatureFlag.getUserRolloutId req1 % 100 = FeatureFlag.getUserRolloutId req2 % 100 ∧
    FeatureFlag.handle f req1 u = FeatureFlag.handle f req2 u := by
  have hid : FeatureFlag.getUserRolloutId req1 = FeatureFlag.getUserRolloutId req2 := by
    unfold FeatureFlag.getUserRolloutId
    rw [hip, hua]
  refine ⟨hid, rfl, by rw [hid], ?_⟩
  unfold FeatureFlag.handle
  rw [hid]

/-- A desktop request from one client identity. -/
def reqIdentityA : Request :=
  { baseReq with ip := "8.8.8.8", userAgent := some "Mozilla/5.0" }

/-- A request with the same client identity but different method, origin and
authentication material. -/
def reqIdentityB : Request :=
  { reqIdentityA with method := "POST", origin := some "http://localhost:3000", authHeader := some "Bearer user-token-123" }

/-- C6 witness: the theorem applied to two requests sharing only the client
identity. -/
theorem c6_rollout_deterministic_witness :
    FeatureFlag.getUserRolloutId reqIdentityA = FeatureFlag.getUserRolloutId reqIdentityB ∧
    FeatureFlag.getUserRolloutId reqIdentityA =
      (FeatureFlag.jsHash (reqIdentityA.ip ++ reqIdentityA.userAgent.getD "")).natAbs ∧
    FeatureFlag.getUserRolloutId reqIdentityA % 100 =
      FeatureFlag.getUserRolloutId reqIdentityB % 100 ∧
    FeatureFlag.handle "beta-features" reqIdentityA none =
      FeatureFlag.handle "beta-features" reqIdentityB none :=
  c6_rollout_deterministic "beta-features" reqIdentityA reqIdentityB none rfl rfl

/-- JSON values, as far as the response transformer inspects them: strings,
numbers, and objects as ordered field lists; `other` stands for any
non-object body (the transformer only checks `typeof body` for objects). -/
inductive JVal where
  | str (s : String)
  | num (n : Nat)
  | obj (fields : List (String × JVal))
  | other

/-- Whether `pat` occurs contiguously in the given character list. -/
def isInfixAux (pat : List Char) : List Char → Bool
  | [] => pat.isEmpty
  | c :: cs => pat.isPrefixOf (c :: cs) || isInfixAux pat cs

/-- Substring containment, mirroring JavaScript `String.includes`. -/
def strContainsSub (s pat : String) : Bool :=
  isInfixAux pat.data s.data

namespace ResponseTransformer

/-- What the downstream chain does once invoked: throw, or finish with a
response status and body. -/
inductive Downstream where
  | throws
  | succeeds (status : Nat) (body : Option JVal)

/-- Observable outcome of `ResponseTransformer.handle`: final status and
body, headers added by the middleware, and the request id stored in the
request context. -/
structure Output where
  status : Nat
  body : Option JVal
  headers : List (String × String)
  ctxRequestId : Option String

/-- The metadata envelope merged into responses: request id, processing
time, timestamp, and (for successful responses only) the version string. -/
def metaObj (requestId processingTime timestamp : String) (withVersion : Bool) : JVal :=
  .obj ([("requestId", .str requestId),
         ("processingTime", .str processingTime),
         ("timestamp", .str timestamp)] ++
        (if withVersion then [("version", .str "1.0.0")] else []))

/-- The request-body validation step: reading the body inside the try block
throws only when the content type includes `application/json` and the raw
body is malformed. -/
def jsonValidationFails (req : Request) : Bool :=
  (match req.contentType with
   | some ct => strContainsSub ct "application/json"
   | none => false) && req.bodyParseThrows

/-- `ResponseTransformer.handle`, with the generated request id, the
formatted processing time and the timestamp taken as parameters (they come
from the clock and the random generator): 400 envelope when JSON validation
fails; 500 envelope with request id, processing time and timestamp when the
downstream chain throws; for a successful downstream JSON object body, the
body merged with the metadata envelope under the `meta` key; any other
successful body is left unchanged. The request id is stored in the context
and sent as `X-Request-ID` in every case. -/
def handle (req : Request) (requestId processingTime timestamp : String)
    (downstream : Downstream) : Output :=
  if jsonValidationFails req then
    { status := 400,
      body := some (.obj [("error", .str "Invalid JSON"),
                          ("message", .str "Request body contains malformed JSON"),
                          ("requestId", .str requestId)]),
      headers := [("X-Request-ID", requestId)],
      ctxRequestId := some requestId }
  else
    match downstream with
    | .throws =>
      { status := 500,
        body := some (.obj [("error", .str "Internal Server Error"),
                            ("message", .str "An error occurred while processing your request"),
                            ("meta", metaObj requestId processingTime timestamp false)]),
        headers := [("X-Request-ID", requestId),
                    ("X-Processing-Time", processingTime),
                    ("X-Server", "AdonisJS-Middleware-Demo")],
        ctxRequestId := some requestId }
    | .succeeds st body =>
      match body with
      | some (.obj fields) =>
        { status := st,
          body := some (.obj (assocSet fields "meta"
            (metaObj requestId processingTime timestamp true))),
          headers := [("X-Request-ID", requestId),
                      ("X-Processing-Time", processingTime),
                      ("X-Server", "AdonisJS-Middleware-Demo")],
          ctxRequestId := some requestId }
      | b =>
        { status := st,
          body := b,
          headers := [("X-Request-ID", requestId),
                      ("X-Processing-Time", processingTime),
                      ("X-Server", "AdonisJS-Middleware-Demo")],
          ctxRequestId := some requestId }

end ResponseTransformer

/-- C5: the response transformer attaches the generated request id to the
context and the `X-Request-ID` header on every path; when the downstream
chain throws it answers a generic 500 envelope whose metadata carries the
request id, processing time and timestamp; when the downstream chain
succeeds with a JSON object body it merges that body with the metadata
envelope (request id, processing time, timestamp, version). -/
theorem c5_transformer (req : Request) (rid pt ts : String)
    (d : ResponseTransformer.Downstream)
    (hvalid : ResponseTransformer.jsonValidationFails req = false) :
    ((ResponseTransformer.handle req rid pt ts d).ctxRequestId = some rid ∧
     ("X-Request-ID", rid) ∈ (ResponseTransformer.handle req rid pt ts d).headers) ∧
    (d = .throws →
      ResponseTransformer.handle req rid pt ts d =
        { status := 500,
          body := some (.obj [("error", .str "Internal Server Error"),
                              ("message", .str "An error occurred while processing your request"),
                              ("meta", ResponseTransformer.metaObj rid pt ts false)]),
          headers := [("X-Request-ID", rid),
                      ("X-Processing-Time", pt),
                      ("X-Server", "AdonisJS-Middleware-Demo")],
          ctxRequestId := some rid }) ∧
    (∀ st fields, d = .succeeds st (some (.obj fields)) →
      ResponseTransformer.handle req rid pt ts d =
        { status := st,
          body := some (.obj (assocSet fields "meta"
            (ResponseTransformer.metaObj rid pt ts true))),
          headers := [("X-Request-ID", rid),
                      ("X-Processing-Time", pt),
                      ("X-Server", "AdonisJS-Middleware-Demo")],
          ctxRequestId := some rid }) := by
  refine ⟨?_, ?_, ?_⟩
  · match d with
    | .throws =>
      simp [ResponseTransformer.handle, hvalid]
    | .succeeds st body =>
      match body with
      | some (.obj fields) => simp [ResponseTransformer.handle, hvalid]
      | some (.str s) => simp [ResponseTransformer.handle, hvalid]
      | some (.num n) => simp [ResponseTransformer.handle, hvalid]
      | some .other => simp [ResponseTransformer.handle, hvalid]
      | none => simp [ResponseTransformer.handle, hvalid]
  · intro hd
    subst hd
    simp [ResponseTransformer.handle, hvalid]
  · intro st fields hd
    subst hd
    simp [ResponseTransformer.handle, hvalid]

/-- C5 witness: the theorem applied to a plain GET request whose downstream
handler succeeds with a one-field JSON object. -/
theorem c5_transformer_witness :
    ResponseTransformer.handle baseReq "req_1" "2.00ms" "2026-01-01"
        (.succeeds 200 (some (.obj [("message", .str "ok")]))) =
      { status := 200,
        body := some (.obj (assocSet [("message", .str "ok")] "meta"
          (ResponseTransformer.metaObj "req_1" "2.00ms" "2026-01-01" true))),
        headers := [("X-Request-ID", "req_1"),
                    ("X-Processing-Time", "2.00ms"),
                    ("X-Server", "AdonisJS-Middleware-Demo")],
        ctxRequestId := some "req_1" } :=
  (c5_transformer baseReq "req_1" "2.00ms" "2026-01-01"
      (.succeeds 200 (some (.obj [("message", .str "ok")]))) rfl).2.2
    200 [("message", .str "ok")] rfl
